import Mathlib

/-!
Shallow embedding of the `ha_fleet` Home Assistant integration
(`custom_components/ha_fleet/__init__.py` and
`custom_components/ha_fleet/metrics_collector.py`).

The integration is glue code around two periodic loops: a metrics reporter
(collects a snapshot from six probes and POSTs it to a cloud collector) and a
command poller (fetches queued commands, executes them sequentially, and
reports each result back).  Effectful Python is embedded as pure Lean
functions from an explicit environment (the outcomes of HTTP calls, the file
system, the host state) to a result together with a trace of emitted effects
(HTTP requests, service calls, file reads, log lines).  Python dicts are
association lists with CPython's `dict.update` semantics; JSON values are an
inductive `JValue`.
-/

/-- JSON-ish values, the payloads that travel through the integration. -/
inductive JValue where
  | null : JValue
  | bool : Bool → JValue
  | num : Int → JValue
  | str : String → JValue
  | arr : List JValue → JValue
  | obj : List (String × JValue) → JValue

/-- A Python dict with string keys, modelled as an association list in
insertion order (CPython preserves insertion order). -/
abbrev PyDict := List (String × JValue)

/-- `d.get(k)`: first value bound to `k`, if any. -/
def pyGet (d : PyDict) (k : String) : Option JValue :=
  (d.find? (fun kv => kv.1 = k)).map (·.2)

/-- `d.get(k, default)`. -/
def pyGetD (d : PyDict) (k : String) (v : JValue) : JValue :=
  (pyGet d k).getD v

/-- Python truthiness of a JSON value (`if x:`). -/
def truthy : JValue → Bool
  | .null => false
  | .bool b => b
  | .num n => n != 0
  | .str s => s != ""
  | .arr xs => !xs.isEmpty
  | .obj kvs => !kvs.isEmpty

/-- Setting one key in a dict, CPython semantics: an existing key keeps its
position and gets the new value, a new key is appended. -/
def dictSet (d : PyDict) (k : String) (v : JValue) : PyDict :=
  if d.any (fun kv => kv.1 = k) then
    d.map (fun kv => if kv.1 = k then (k, v) else kv)
  else
    d ++ [(k, v)]

/-- `d.update(u)`: fold `dictSet` over the entries of `u` in order. -/
def dictUpdate (d u : PyDict) : PyDict :=
  u.foldl (fun acc kv => dictSet acc kv.1 kv.2) d

/-- The keys of a dict. -/
def dictKeys (d : PyDict) : List String := d.map (·.1)

theorem dictKeys_dictSet (d : PyDict) (k : String) (v : JValue) :
    dictKeys (dictSet d k v) =
      if d.any (fun kv => kv.1 = k) then dictKeys d else dictKeys d ++ [k] := by
  unfold dictSet dictKeys
  by_cases hmem : d.any (fun kv => kv.1 = k) = true
  · simp only [hmem, if_true, List.map_map]
    apply List.map_congr_left
    intro kv _
    by_cases hk : kv.1 = k <;> simp [hk]
  · simp [hmem]

theorem mem_dictKeys_dictSet (d : PyDict) (k : String) (v : JValue) (x : String) :
    x ∈ dictKeys (dictSet d k v) ↔ x ∈ dictKeys d ∨ x = k := by
  rw [dictKeys_dictSet]
  by_cases hmem : d.any (fun kv => kv.1 = k) = true
  · simp only [hmem, if_true]
    constructor
    · exact Or.inl
    · rintro (h | rfl)
      · exact h
      · simp only [List.any_eq_true, decide_eq_true_eq] at hmem
        obtain ⟨kv, hkv, hk⟩ := hmem
        exact List.mem_map.mpr ⟨kv, hkv, hk⟩
  · simp [hmem]

theorem mem_dictKeys_dictUpdate (d u : PyDict) (x : String) :
    x ∈ dictKeys (dictUpdate d u) ↔ x ∈ dictKeys d ∨ x ∈ dictKeys u := by
  unfold dictUpdate
  induction u generalizing d with
  | nil => simp [dictKeys]
  | cons kv rest ih =>
    simp only [List.foldl_cons]
    rw [ih, mem_dictKeys_dictSet]
    simp only [dictKeys, List.map_cons, List.mem_cons]
    tauto

/-! ## Metrics source (`MetricsCollector.collect_all`)

`collect_all` runs six probes in a fixed order; each probe either returns a
partial mapping that is merged into the snapshot with `dict.update`, or
raises, in which case the exception is caught, a warning is logged, and the
probe contributes nothing.  The probes themselves talk to the OS, psutil,
sockets and the supervisor API, so their outcomes are environment inputs:
`Except String PyDict` is "raised with message" or "returned this mapping". -/

/-- Outcome of each of the six probes of `MetricsCollector.collect_all`, in
source order: `_collect_core`, `_collect_performance`, `_collect_entities`,
`_collect_security`, `_collect_database`, `_collect_backups`. -/
structure ProbeOutcomes where
  core : Except String PyDict
  performance : Except String PyDict
  entities : Except String PyDict
  security : Except String PyDict
  database : Except String PyDict
  backups : Except String PyDict

/-- One `try: metrics.update(probe()) except Exception: log` block of
`collect_all`. -/
def applyProbe (m : PyDict) : Except String PyDict → PyDict
  | .ok r => dictUpdate m r
  | .error _ => m

/-- The probe outcomes in the order `collect_all` visits them. -/
def probeList (po : ProbeOutcomes) : List (Except String PyDict) :=
  [po.core, po.performance, po.entities, po.security, po.database, po.backups]

/-- `MetricsCollector.collect_all`: start from `{}` and merge the six probes
in source order, each individually fault-isolated. -/
def collect_all (po : ProbeOutcomes) : PyDict :=
  (probeList po).foldl applyProbe []

/-- The partial mapping of a probe that returned normally. -/
def exceptOk : Except String PyDict → Option PyDict
  | .ok r => some r
  | .error _ => none

/-- The mappings of the probes that did not raise, in source order. -/
def okProbes (po : ProbeOutcomes) : List PyDict :=
  (probeList po).filterMap exceptOk

theorem mem_dictKeys_foldl_applyProbe (es : List (Except String PyDict))
    (m : PyDict) (x : String) :
    x ∈ dictKeys (es.foldl applyProbe m) ↔
      x ∈ dictKeys m ∨ ∃ r ∈ es.filterMap exceptOk, x ∈ dictKeys r := by
  induction es generalizing m with
  | nil => simp
  | cons e rest ih =>
    simp only [List.foldl_cons]
    rw [ih]
    cases e with
    | ok r =>
      simp only [applyProbe, List.filterMap_cons, exceptOk, List.mem_cons]
      rw [mem_dictKeys_dictUpdate]
      constructor
      · rintro ((h | h) | ⟨s, hs, hx⟩)
        · exact Or.inl h
        · exact Or.inr ⟨r, Or.inl rfl, h⟩
        · exact Or.inr ⟨s, Or.inr hs, hx⟩
      · rintro (h | ⟨s, (rfl | hs), hx⟩)
        · exact Or.inl (Or.inl h)
        · exact Or.inl (Or.inr hx)
        · exact Or.inr ⟨s, hs, hx⟩
    | error s => simp [applyProbe, exceptOk]

/-- C1: the keys of a snapshot are exactly the keys contributed by the
probes that did not raise; a raising probe contributes no keys and never
aborts the snapshot. -/
theorem collect_all_fault_isolated (po : ProbeOutcomes) :
    ∀ k, k ∈ dictKeys (collect_all po) ↔ ∃ r ∈ okProbes po, k ∈ dictKeys r := by
  intro k
  unfold collect_all okProbes
  rw [mem_dictKeys_foldl_applyProbe]
  simp [dictKeys]

/-! ## Effects and environments

Effectful Python is embedded as pure functions returning a trace of emitted
`Effect`s alongside their value.  HTTP responses, the supervisor token, the
host clock and the file system are explicit environment inputs.  Log calls
are modelled as effects only on the metrics-submission path, where the spec
makes claims about logging; elsewhere logging is not observable. -/

/-- `str(x)` for the scalar values that flow into f-strings here; containers
are rendered opaquely (their exact `repr` never matters to a claim). -/
def pyStr : JValue → String
  | .null => "None"
  | .bool true => "True"
  | .bool false => "False"
  | .num n => toString n
  | .str s => s
  | .arr _ => "<list>"
  | .obj _ => "<dict>"

/-- `.get(k, default)` on a JSON value that the code treats as an object (a
non-object here would raise `AttributeError` into the surrounding handler
`except`; no claim exercises that). -/
def jvGetD (v : JValue) (k : String) (d : JValue) : JValue :=
  match v with
  | .obj kvs => pyGetD kvs k d
  | _ => d

/-- `s.rstrip("/")`. -/
def rstripSlash (s : String) : String :=
  String.mk ((s.toList.reverse.dropWhile (· = '/')).reverse)

/-- Observable effects of the integration, in emission order. -/
inductive Effect where
  | supPost (path : String) (body : PyDict)    -- POST http://supervisor{path}
  | supGet (path : String)                     -- GET http://supervisor{path}
  | cloudGet (url : String)                    -- GET on the cloud collector
  | cloudPost (url : String) (body : PyDict)   -- POST on the cloud collector
  | serviceCall (domain service : String)      -- hass.services.async_call
  | fileRead (path : String)                   -- local log file read
  | collectMetrics                             -- collector.collect_all()
  | logDebug (msg : String)
  | logInfo (msg : String)
  | logError (msg : String)

/-- Outcome of one HTTP request whose body is parsed with `resp.json()`
(responses are JSON objects): a status with the parsed object, a timeout, or
any other exception with its message. -/
inductive HttpOutcome where
  | resp (status : Nat) (body : PyDict)
  | timeout
  | raise (msg : String)

/-- Outcome of one HTTP request whose body is read with `resp.text()`. -/
inductive TextOutcome where
  | resp (status : Nat) (text : String)
  | raise (msg : String)

/-- One automation entity as `_list_automations` reads it from
`hass.states`. -/
structure AutoEntity where
  entity_id : String
  friendly_name : Option JValue
  state : String
  last_triggered : Option JValue

/-- Environment of one command execution: supervisor token, clock, and the
outcome of each sidecar interaction the handlers can perform. -/
structure SupEnv where
  supervisorToken : Option String
  nowStr : String                 -- datetime.now().strftime("%Y-%m-%d %H:%M")
  backupPost : HttpOutcome        -- POST /backups/new/full
  backupInfoGet : HttpOutcome     -- GET /backups/{slug}/info
  coreLogs : TextOutcome          -- GET /core/logs
  coreUpdatePost : HttpOutcome    -- POST /core/update
  restartCall : Except String Unit              -- hass restart service call
  automations : List AutoEntity                 -- automation states
  logFile : Option (String × Except String (List String))
    -- first existing candidate log path, with its readlines() or a read error

/-- Result dict of one command handler: every handler returns a dict with a
`success` flag, a `message`, and possibly further keys (`extra`). -/
structure CmdResult where
  success : Bool
  message : String
  extra : PyDict := []

/-- The handler result as the JSON object it is in Python. -/
def CmdResult.toJ (r : CmdResult) : PyDict :=
  [("success", .bool r.success), ("message", .str r.message)] ++ r.extra

/-! ## Command handlers (`__init__.py`) -/

/-- `_execute_backup`: requires the supervisor token, builds a default name
from the clock, POSTs to `/backups/new/full` with a 600s timeout, and maps
the response/timeout/exception to a result dict. -/
def execute_backup (env : SupEnv) (params : PyDict) : List Effect × CmdResult :=
  match env.supervisorToken with
  | none =>
    ([], ⟨false, "Supervisor not available (not running on HA OS/Supervised)", []⟩)
  | some _ =>
    let backup_name : String :=
      match pyGet params "name" with
      | some v => pyStr v
      | none => "Fleet backup " ++ env.nowStr
    let payload : PyDict :=
      [("name", .str backup_name)] ++
        (match pyGet params "password" with
         | some pw => [("password", pw)]
         | none => [])
    let eff := Effect.supPost "/backups/new/full" payload
    match env.backupPost with
    | .resp status body =>
      if status = 200 ∨ status = 201 then
        let slug := jvGetD (pyGetD body "data" (.obj [])) "slug" (.str "unknown")
        ([eff], ⟨true, "Backup created: " ++ backup_name,
          [("slug", slug), ("name", .str backup_name)]⟩)
      else
        ([eff], ⟨false, "Supervisor API error: " ++ toString status, []⟩)
    | .timeout => ([eff], ⟨false, "Backup creation timed out", []⟩)
    | .raise e => ([eff], ⟨false, "Backup error: " ++ e, []⟩)

/-- `_get_backup_info`: fails fast without a truthy `slug` parameter, else
GETs `/backups/{slug}/info`.  (`str(TimeoutError())` is the empty string, so
a timeout yields `"Error: "`.) -/
def get_backup_info (env : SupEnv) (params : PyDict) : List Effect × CmdResult :=
  match env.supervisorToken with
  | none => ([], ⟨false, "Supervisor not available", []⟩)
  | some _ =>
    let slug := pyGetD params "slug" .null
    if !truthy slug then
      ([], ⟨false, "Missing backup slug parameter", []⟩)
    else
      let eff := Effect.supGet ("/backups/" ++ pyStr slug ++ "/info")
      match env.backupInfoGet with
      | .resp status body =>
        if status = 200 then
          ([eff], ⟨true, "Backup info retrieved",
            [("data", pyGetD body "data" (.obj []))]⟩)
        else
          ([eff], ⟨false, "Backup not found: " ++ toString status, []⟩)
      | .timeout => ([eff], ⟨false, "Error: ", []⟩)
      | .raise e => ([eff], ⟨false, "Error: " ++ e, []⟩)

/-- Python `text.split(c)` for a one-character separator, by structural
recursion over the characters. -/
def pySplitChar (sep : Char) : List Char → List (List Char)
  | [] => [[]]
  | c :: rest =>
    let r := pySplitChar sep rest
    if c = sep then [] :: r
    else
      match r with
      | [] => [[c]]
      | h :: t => (c :: h) :: t

/-- `logs_text.split('\n')`. -/
def pySplitNl (s : String) : List String :=
  (pySplitChar '\n' s.toList).map (fun cs => String.mk cs)

/-- `xs[-n:]` for an integer `n`: for positive `n` the last `n` elements
(all of them when `n ≥ len`); `-0` is `0`, so `n = 0` yields the whole list;
a negative `n` means `xs[(-n):]`. -/
def pyTailSlice (xs : List String) (n : Int) : List String :=
  if 0 < n then xs.drop (xs.length - n.toNat) else xs.drop (-n).toNat

/-- `all_lines[-lines:] if len(all_lines) > lines else all_lines`. -/
def recentOf (all_lines : List String) (lines : Int) : List String :=
  if (all_lines.length : Int) > lines then pyTailSlice all_lines lines else all_lines

/-- `lines = params.get("lines", 1000)`.  (A non-integer value would raise
`TypeError` in the slice, into the handler's `except`; no claim exercises
that, so the model reads an integer or the default.) -/
def get_logs_lines (params : PyDict) : Int :=
  match pyGetD params "lines" (.num 1000) with
  | .num n => n
  | _ => 1000

/-- `_get_logs_from_file`: fallback for non-supervisor installs; picks the
first existing candidate path, reads it off the event loop, and returns the
last `lines` lines. -/
def get_logs_from_file (env : SupEnv) (params : PyDict) : List Effect × CmdResult :=
  let lines := get_logs_lines params
  match env.logFile with
  | none =>
    ([], ⟨false, "Log file not found. Use Supervisor API on HA OS/Supervised.", []⟩)
  | some (path, .error e) =>
    ([Effect.fileRead path], ⟨false, "Error reading logs: " ++ e, []⟩)
  | some (path, .ok all_lines) =>
    let recent := recentOf all_lines lines
    let logs_text := String.join recent
    ([Effect.fileRead path],
      ⟨true, "Retrieved " ++ toString recent.length ++ " log lines",
        [("logs", .str logs_text),
         ("total_lines", .num all_lines.length),
         ("returned_lines", .num recent.length)]⟩)

/-- `_get_logs`: prefers the supervisor log API (splitting the text response
on newlines and keeping the last `lines` fields), falling back to the local
log file when no supervisor token is present. -/
def get_logs (env : SupEnv) (params : PyDict) : List Effect × CmdResult :=
  match env.supervisorToken with
  | none => get_logs_from_file env params
  | some _ =>
    let lines := get_logs_lines params
    let eff := Effect.supGet "/core/logs"
    match env.coreLogs with
    | .resp status text =>
      if status = 200 then
        let all_lines := pySplitNl text
        let recent := recentOf all_lines lines
        let logs_result := String.intercalate "\n" recent
        ([eff], ⟨true, "Retrieved " ++ toString recent.length ++ " log lines",
          [("logs", .str logs_result),
           ("total_lines", .num all_lines.length),
           ("returned_lines", .num recent.length)]⟩)
      else
        ([eff], ⟨false, "Supervisor API returned " ++ toString status, []⟩)
    | .raise e => ([eff], ⟨false, "Error: " ++ e, []⟩)

/-- One entry of `_list_automations`'s result list. -/
def automationEntry (a : AutoEntity) : JValue :=
  .obj [("entity_id", .str a.entity_id),
        ("name", a.friendly_name.getD (.str a.entity_id)),
        ("state", .str a.state),
        ("last_triggered", .str (pyStr (a.last_triggered.getD (.str "Never"))))]

/-- `_list_automations`: enumerates automation states; no outbound effect. -/
def list_automations (env : SupEnv) (_params : PyDict) : List Effect × CmdResult :=
  let autos := env.automations.map automationEntry
  ([], ⟨true, "Found " ++ toString autos.length ++ " automations",
    [("automations", .arr autos), ("count", .num autos.length)]⟩)

/-- Step 2 of `_execute_update` ("Trigger update"): POST `/core/update`
with a 300s timeout, a `version` key only when `target_version` is truthy;
`btr` is the trace step 1 already emitted. -/
def update_post_step (env : SupEnv) (btr : List Effect)
    (target_version : JValue) (backup_before : Bool) :
    List Effect × CmdResult :=
  let payload : PyDict :=
    if truthy target_version then [("version", target_version)] else []
  let eff := Effect.supPost "/core/update" payload
  match env.coreUpdatePost with
  | .resp status _ =>
    if status = 200 ∨ status = 201 then
      (btr ++ [eff], ⟨true,
        "Update initiated to " ++
          (if truthy target_version then pyStr target_version else "latest"),
        [("target_version", target_version),
         ("backup_created", .bool backup_before)]⟩)
    else
      (btr ++ [eff], ⟨false, "Supervisor API error: " ++ toString status, []⟩)
  | .timeout => (btr ++ [eff], ⟨false, "Update initiation timed out", []⟩)
  | .raise e => (btr ++ [eff], ⟨false, "Update error: " ++ e, []⟩)

/-- `_execute_update`: requires the supervisor token; when `backup_before`
(default `True`) is truthy, step 1 runs `_execute_backup` and aborts with a
failure result if that fails; step 2 is the update POST. -/
def execute_update (env : SupEnv) (params : PyDict) : List Effect × CmdResult :=
  match env.supervisorToken with
  | none =>
    ([], ⟨false, "Supervisor not available (not running on HA OS/Supervised)", []⟩)
  | some _ =>
    let target_version := pyGetD params "target_version" .null
    let backup_before := truthy (pyGetD params "backup_before" (.bool true))
    if backup_before then
      let br := execute_backup env
        [("name", .str ("Pre-update backup " ++ env.nowStr))]
      if !br.2.success then
        (br.1, ⟨false, "Backup failed: " ++ br.2.message, []⟩)
      else
        update_post_step env br.1 target_version backup_before
    else
      update_post_step env [] target_version backup_before

/-! ## Command dispatch and the poll loop -/

/-- The dispatch of `_execute_command` (`command_type` is annotated `str` in
the source), before the surrounding `try/except`.  `.error e` is an
exception escaping the selected branch: the handlers above catch their own
exceptions, so the only call that can raise into the outer `except` is the
restart service call, which sits bare in its branch. -/
def dispatch_command (env : SupEnv) (command_type : String) (params : PyDict) :
    List Effect × Except String CmdResult :=
  if command_type = "trigger_backup" then
    let r := execute_backup env params
    (r.1, .ok r.2)
  else if command_type = "get_backup_info" then
    let r := get_backup_info env params
    (r.1, .ok r.2)
  else if command_type = "get_logs" then
    let r := get_logs env params
    (r.1, .ok r.2)
  else if command_type = "restart_homeassistant" then
    match env.restartCall with
    | .ok _ =>
      ([Effect.serviceCall "homeassistant" "restart"],
        .ok ⟨true, "Home Assistant restarting...", []⟩)
    | .error e => ([Effect.serviceCall "homeassistant" "restart"], .error e)
  else if command_type = "list_automations" then
    let r := list_automations env params
    (r.1, .ok r.2)
  else if command_type = "update_core" then
    let r := execute_update env params
    (r.1, .ok r.2)
  else
    ([], .ok ⟨false, "Unknown command type: " ++ command_type, []⟩)

/-- `_execute_command`: the dispatch plus the outer `except Exception` that
turns an escaping exception into a failure result, so the function always
returns a result dict and never propagates. -/
def execute_command (env : SupEnv) (command_type : String) (params : PyDict) :
    List Effect × CmdResult :=
  match dispatch_command env command_type params with
  | (t, .ok r) => (t, r)
  | (t, .error e) => (t, ⟨false, "Execution error: " ++ e, []⟩)

/-- Cloud connection data used by the poll loop: the (already `rstrip`ed)
collector base URL and this instance's id (`hass.data.get("core.uuid")`). -/
structure CloudCfg where
  cloud_url : String
  instance_id : JValue

/-- The body `_report_command_result` POSTs to
`{cloud_url}/api/v1/commands/{id}/result`. -/
def reportPayload (instance_id : JValue) (result : CmdResult) : PyDict :=
  [("instance_id", instance_id),
   ("status", .str (if result.success then "success" else "failed")),
   ("result", if result.success then .obj result.toJ else .null),
   ("error", if result.success then .null else .str result.message)]

/-- `_report_command_result`: one POST of the result payload; a non-200
response or an exception is caught and only logged, so the call always
returns. -/
def report_command_result (cfg : CloudCfg) (command_id : JValue)
    (result : CmdResult) : List Effect :=
  [Effect.cloudPost
    (cfg.cloud_url ++ "/api/v1/commands/" ++ pyStr command_id ++ "/result")
    (reportPayload cfg.instance_id result)]

/-- One fetched command as `_poll_and_execute_commands` reads it:
`cmd.get("id")`, `cmd.get("command_type")` (annotated `str`),
`cmd.get("params", {})`. -/
structure Command where
  id : JValue
  command_type : String
  params : PyDict

/-- The per-batch loop of `_poll_and_execute_commands`: execute each command
in the order received, report its result to the cloud, then move to the
next. -/
def processBatch (env : SupEnv) (cfg : CloudCfg) : List Command → List Effect
  | [] => []
  | cmd :: rest =>
    let er := execute_command env cmd.command_type cmd.params
    er.1 ++ report_command_result cfg cmd.id er.2 ++ processBatch env cfg rest

/-- Environment of one poll tick: the instance id from the host data store,
the status of the command fetch (or a transport exception), and the fetched
command list of a 200 response. -/
structure PollEnv where
  sup : SupEnv
  instance_id : JValue            -- hass.data.get("core.uuid")
  fetchStatus : Except String Nat -- GET status, or exception message
  fetchedCommands : List Command  -- data.get("commands", []) of the 200 body

/-- Per-entry configuration stored in `hass.data` at setup. -/
structure EntryConfig where
  cloud_url : String
  api_key : String
  instance_name : String

/-- `_poll_and_execute_commands`: bail out without a truthy instance id;
GET the pending commands; on a non-200 status, a transport error, or an
empty queue do nothing further; otherwise process the batch. -/
def poll_and_execute_commands (cfg : EntryConfig) (env : PollEnv) : List Effect :=
  let cloud_url := rstripSlash cfg.cloud_url
  if !truthy env.instance_id then []
  else
    let fetchEff := Effect.cloudGet
      (cloud_url ++ "/api/v1/commands?instance_id=" ++ pyStr env.instance_id)
    match env.fetchStatus with
    | .error _ => [fetchEff]
    | .ok status =>
      if status ≠ 200 then [fetchEff]
      else if env.fetchedCommands.isEmpty then [fetchEff]
      else fetchEff ::
        processBatch env.sup ⟨cloud_url, env.instance_id⟩ env.fetchedCommands

/-- The scheduled `poll_commands` callback: wraps the poll in a `try/except`
and runs it unconditionally — it never consults the host state, which it
receives here only because the closure captures `hass`. -/
def poll_commands_tick (_ha_state : String) (cfg : EntryConfig) (env : PollEnv) :
    List Effect :=
  poll_and_execute_commands cfg env

/-! ## Metrics submission (`send_metrics`, `_send_metrics_to_cloud`)

This path carries the spec's logging claims, so its log calls are modelled
as effects. -/

/-- Outcome of the metrics POST: a response carries both its parsed JSON
object (read on 200) and its text (read on error statuses); the three
`except` arms of `_send_metrics_to_cloud` are timeout, `ClientError`, and
any other exception. -/
inductive CloudPostOutcome where
  | resp (status : Nat) (json : PyDict) (text : String)
  | timeout
  | clientError (msg : String)
  | raise (msg : String)

/-- Environment of one metrics submission: the probe outcomes behind
`collector.collect_all()`, the instance id, the clock, and the POST
outcome. -/
structure MetricsEnv where
  probes : ProbeOutcomes
  instance_id : JValue            -- hass.data.get("core.uuid")
  nowIso : String                 -- datetime.now(timezone.utc).isoformat()
  postOutcome : CloudPostOutcome  -- POST /api/v1/metrics

/-- The success log line of `_send_metrics_to_cloud`. -/
def metricsSentMsg (json : PyDict) (metrics : PyDict) : String :=
  "✅ Metrics sent successfully! Health Score: " ++
    pyStr (pyGetD json "health_score" (.str "?")) ++
    " | Instance: " ++
    (pyStr (pyGetD json "instance_id" (.str "unknown"))).take 8 ++
    "... | Entities: " ++ pyStr (pyGetD metrics "total_entities" (.str "?")) ++
    " | Version: " ++ pyStr (pyGetD metrics "core_version" (.str "?"))

/-- The distinct 401 log line of `_send_metrics_to_cloud`. -/
def authFailMsg (text : String) : String :=
  "❌ Authentication failed! Invalid API token. " ++
    "Please reconfigure the integration with a valid token. Error: " ++ text

/-- `_send_metrics_to_cloud`: collect a snapshot, attach instance id and
timestamp, POST once to `{cloud_url}/api/v1/metrics`; every response class
and exception is only logged — there is no second attempt and the stored
configuration is returned untouched. -/
def send_metrics_to_cloud (cfg : EntryConfig) (env : MetricsEnv) :
    List Effect × EntryConfig :=
  let metrics := collect_all env.probes
  if !truthy env.instance_id then
    ([Effect.collectMetrics,
      Effect.logError "No instance UUID found - cannot send metrics"], cfg)
  else
    let payload : PyDict :=
      [("instance_id", env.instance_id),
       ("timestamp", .str env.nowIso),
       ("metrics", .obj metrics)]
    let url := rstripSlash cfg.cloud_url ++ "/api/v1/metrics"
    let postEff := Effect.cloudPost url payload
    match env.postOutcome with
    | .resp status json text =>
      if status = 200 then
        ([Effect.collectMetrics, postEff,
          Effect.logInfo (metricsSentMsg json metrics)], cfg)
      else if status = 401 then
        ([Effect.collectMetrics, postEff,
          Effect.logError (authFailMsg text)], cfg)
      else
        ([Effect.collectMetrics, postEff,
          Effect.logError ("❌ Failed to send metrics: " ++ toString status ++
            " - " ++ text)], cfg)
    | .timeout =>
      ([Effect.collectMetrics, postEff,
        Effect.logError "Timeout sending metrics to cloud"], cfg)
    | .clientError e =>
      ([Effect.collectMetrics, postEff,
        Effect.logError ("HTTP error sending metrics: " ++ e)], cfg)
    | .raise e =>
      ([Effect.collectMetrics, postEff,
        Effect.logError ("Unexpected error sending metrics: " ++ e)], cfg)

/-- The scheduled `send_metrics` callback: a complete skip (one debug log)
unless the host state is `"RUNNING"`; its outer `try/except` only logs. -/
def send_metrics_tick (ha_state : String) (cfg : EntryConfig) (env : MetricsEnv) :
    List Effect × EntryConfig :=
  if ha_state ≠ "RUNNING" then
    ([Effect.logDebug ("HA not fully running yet (state: " ++ ha_state ++
      "), skipping metrics")], cfg)
  else
    send_metrics_to_cloud cfg env

/-- Effects other than log lines: HTTP traffic, service calls, file reads,
and snapshot collection. -/
def isExternalEffect : Effect → Bool
  | .logDebug _ => false
  | .logInfo _ => false
  | .logError _ => false
  | _ => true

/-- POSTs to the cloud collector. -/
def isCloudPost : Effect → Bool
  | .cloudPost _ _ => true
  | _ => false

/-- Error log lines. -/
def isLogError : Effect → Bool
  | .logError _ => true
  | _ => false

/-- POSTs to the sidecar update endpoint. -/
def isCoreUpdatePost : Effect → Bool
  | .supPost "/core/update" _ => true
  | _ => false

/-! ## Trace lemmas: command execution never POSTs to the cloud -/

theorem execute_backup_filter_cloudPost (env : SupEnv) (params : PyDict) :
    (execute_backup env params).1.filter isCloudPost = [] := by
  unfold execute_backup
  repeat' split
  all_goals rfl

theorem get_backup_info_filter_cloudPost (env : SupEnv) (params : PyDict) :
    (get_backup_info env params).1.filter isCloudPost = [] := by
  unfold get_backup_info
  dsimp only
  repeat' split
  all_goals rfl

theorem get_logs_from_file_filter_cloudPost (env : SupEnv) (params : PyDict) :
    (get_logs_from_file env params).1.filter isCloudPost = [] := by
  unfold get_logs_from_file
  dsimp only
  repeat' split
  all_goals rfl

theorem get_logs_filter_cloudPost (env : SupEnv) (params : PyDict) :
    (get_logs env params).1.filter isCloudPost = [] := by
  unfold get_logs
  dsimp only
  repeat' split
  all_goals first
    | rfl
    | apply get_logs_from_file_filter_cloudPost

theorem update_post_step_filter_cloudPost (env : SupEnv) (btr : List Effect)
    (tv : JValue) (bb : Bool) (h : btr.filter isCloudPost = []) :
    (update_post_step env btr tv bb).1.filter isCloudPost = [] := by
  unfold update_post_step
  dsimp only
  repeat' split
  all_goals simp [List.filter_append, h, isCloudPost]

theorem execute_update_filter_cloudPost (env : SupEnv) (params : PyDict) :
    (execute_update env params).1.filter isCloudPost = [] := by
  unfold execute_update
  cases env.supervisorToken with
  | none => rfl
  | some tok =>
    dsimp only
    split
    · split
      · exact execute_backup_filter_cloudPost env _
      · exact update_post_step_filter_cloudPost env _ _ _
          (execute_backup_filter_cloudPost env _)
    · exact update_post_step_filter_cloudPost env _ _ _ rfl

theorem dispatch_command_filter_cloudPost (env : SupEnv) (command_type : String)
    (params : PyDict) :
    (dispatch_command env command_type params).1.filter isCloudPost = [] := by
  unfold dispatch_command
  dsimp only
  repeat' split
  all_goals first
    | rfl
    | apply execute_backup_filter_cloudPost
    | apply get_backup_info_filter_cloudPost
    | apply get_logs_filter_cloudPost
    | apply execute_update_filter_cloudPost

theorem execute_command_fst (env : SupEnv) (command_type : String)
    (params : PyDict) :
    (execute_command env command_type params).1 =
      (dispatch_command env command_type params).1 := by
  unfold execute_command
  rcases h : dispatch_command env command_type params with ⟨t, r⟩
  cases r <;> rfl

theorem execute_command_filter_cloudPost (env : SupEnv) (command_type : String)
    (params : PyDict) :
    (execute_command env command_type params).1.filter isCloudPost = [] := by
  rw [execute_command_fst]
  exact dispatch_command_filter_cloudPost env command_type params

/-- C2: within one poll batch the trace is exactly, command by command in
the order received, the command's execution effects followed immediately by
the POST of its result; consequently the result-report POSTs occur in
exactly the order the commands were received, one per command, each before
the next command's execution effects. -/
theorem processBatch_reports_in_order (env : SupEnv) (cfg : CloudCfg)
    (cmds : List Command) :
    processBatch env cfg cmds =
      cmds.flatMap (fun cmd =>
        (execute_command env cmd.command_type cmd.params).1 ++
          report_command_result cfg cmd.id
            (execute_command env cmd.command_type cmd.params).2) ∧
    (processBatch env cfg cmds).filter isCloudPost =
      cmds.map (fun cmd =>
        Effect.cloudPost
          (cfg.cloud_url ++ "/api/v1/commands/" ++ pyStr cmd.id ++ "/result")
          (reportPayload cfg.instance_id
            (execute_command env cmd.command_type cmd.params).2)) := by
  constructor
  · induction cmds with
    | nil => rfl
    | cons c rest ih =>
      simp only [processBatch, List.flatMap_cons, List.append_assoc]
      rw [ih]
  · induction cmds with
    | nil => rfl
    | cons c rest ih =>
      simp only [processBatch, List.filter_append, List.map_cons,
        execute_command_filter_cloudPost, List.nil_append]
      rw [ih]
      rfl

/-- C4: a `command_type` outside the six known ones yields the literal
failure result, touches no handler and emits no effect, whatever the
environment and parameters. -/
theorem execute_command_unknown_type (env : SupEnv) (command_type : String)
    (params : PyDict)
    (h : command_type ∉ ["trigger_backup", "get_backup_info", "get_logs",
      "restart_homeassistant", "list_automations", "update_core"]) :
    execute_command env command_type params =
      ([], ⟨false, "Unknown command type: " ++ command_type, []⟩) := by
  simp only [List.mem_cons, List.not_mem_nil, or_false, not_or] at h
  obtain ⟨h1, h2, h3, h4, h5, h6⟩ := h
  unfold execute_command dispatch_command
  simp [h1, h2, h3, h4, h5, h6]

/-- Sample environment with a failing backup endpoint. -/
def sampleEnv : SupEnv :=
  { supervisorToken := some "tok"
    nowStr := "2026-01-01 00:00"
    backupPost := .resp 500 []
    backupInfoGet := .resp 200 []
    coreLogs := .resp 200 ""
    coreUpdatePost := .resp 200 []
    restartCall := .ok ()
    automations := []
    logFile := none }

theorem execute_command_unknown_type_witness :
    ("reboot_flux_capacitor" ∉ ["trigger_backup", "get_backup_info",
      "get_logs", "restart_homeassistant", "list_automations",
      "update_core"]) ∧
    execute_command sampleEnv "reboot_flux_capacitor" [] =
      ([], ⟨false, "Unknown command type: reboot_flux_capacitor", []⟩) :=
  ⟨by decide,
   execute_command_unknown_type sampleEnv "reboot_flux_capacitor" [] (by decide)⟩

/-- C5: an exception escaping a handler branch is caught by
`_execute_command` and converted into a failure result whose message
contains the exception message; a result is always returned. -/
theorem execute_command_catches_exception (env : SupEnv) (command_type : String)
    (params : PyDict) (t : List Effect) (e : String)
    (h : dispatch_command env command_type params = (t, .error e)) :
    (execute_command env command_type params).2.success = false ∧
    (execute_command env command_type params).2.message =
      "Execution error: " ++ e ∧
    e.toList <:+ (execute_command env command_type params).2.message.toList := by
  unfold execute_command
  rw [h]
  refine ⟨rfl, rfl, ?_⟩
  have hsplit : ("Execution error: " ++ e).toList =
      ("Execution error: ").toList ++ e.toList := by simp
  simp only [hsplit]
  exact List.suffix_append _ _

/-- Environment whose restart service call raises. -/
def throwingEnv : SupEnv := { sampleEnv with restartCall := .error "boom" }

theorem execute_command_catches_exception_witness :
    dispatch_command throwingEnv "restart_homeassistant" [] =
      ([Effect.serviceCall "homeassistant" "restart"], .error "boom") ∧
    ((execute_command throwingEnv "restart_homeassistant" []).2.success = false ∧
     (execute_command throwingEnv "restart_homeassistant" []).2.message =
       "Execution error: " ++ "boom" ∧
     "boom".toList <:+
       (execute_command throwingEnv "restart_homeassistant" []).2.message.toList) :=
  ⟨rfl, execute_command_catches_exception throwingEnv "restart_homeassistant"
    [] _ "boom" rfl⟩

/-- C9: the result-report body is `{instance_id, status, result, error}`
with `status = "success"` exactly when the executor result succeeded, the
`result` field the executor result on success and null on failure, and the
`error` field the result message on failure and null on success. -/
theorem report_payload_fields (cfg : CloudCfg) (command_id : JValue)
    (result : CmdResult) :
    report_command_result cfg command_id result =
      [Effect.cloudPost
        (cfg.cloud_url ++ "/api/v1/commands/" ++ pyStr command_id ++ "/result")
        (reportPayload cfg.instance_id result)] ∧
    pyGet (reportPayload cfg.instance_id result) "instance_id" =
      some cfg.instance_id ∧
    (pyGet (reportPayload cfg.instance_id result) "status" =
        some (.str "success") ↔ result.success = true) ∧
    pyGet (reportPayload cfg.instance_id result) "result" =
      some (if result.success then .obj result.toJ else .null) ∧
    pyGet (reportPayload cfg.instance_id result) "error" =
      some (if result.success then .null else .str result.message) := by
  refine ⟨rfl, ?_, ?_, ?_, ?_⟩ <;>
    cases hr : result.success <;>
    simp [reportPayload, pyGet, List.find?, hr]

/-- C10: the command-poll tick ignores the host readiness state entirely:
two ticks in different host states but otherwise identical environments
fetch and execute identically. -/
theorem poll_tick_independent_of_host_state (s1 s2 : String)
    (cfg : EntryConfig) (env : PollEnv) :
    poll_commands_tick s1 cfg env = poll_commands_tick s2 cfg env := rfl

theorem execute_backup_filter_coreUpdatePost (env : SupEnv) (params : PyDict) :
    (execute_backup env params).1.filter isCoreUpdatePost = [] := by
  unfold execute_backup
  dsimp only
  repeat' split
  all_goals rfl

/-- C3: when `backup_before` is set to true and the preliminary backup
returns a failure result, `_execute_update` returns a failure result and
the trace contains no POST to the sidecar update endpoint. -/
theorem execute_update_aborts_on_failed_backup (env : SupEnv) (params : PyDict)
    (hb : pyGet params "backup_before" = some (.bool true))
    (hfail : (execute_backup env
      [("name", .str ("Pre-update backup " ++ env.nowStr))]).2.success = false) :
    (execute_update env params).2.success = false ∧
    (execute_update env params).1.filter isCoreUpdatePost = [] := by
  have hbb : truthy (pyGetD params "backup_before" (.bool true)) = true := by
    unfold pyGetD
    rw [hb]
    rfl
  unfold execute_update
  cases env.supervisorToken with
  | none => exact ⟨rfl, rfl⟩
  | some tok =>
    dsimp only
    simp only [hbb, hfail, Bool.not_false, if_true]
    exact ⟨by trivial, execute_backup_filter_coreUpdatePost env _⟩

theorem execute_update_aborts_on_failed_backup_witness :
    pyGet [("backup_before", JValue.bool true)] "backup_before" =
      some (.bool true) ∧
    (execute_backup sampleEnv
      [("name", .str ("Pre-update backup " ++ sampleEnv.nowStr))]).2.success =
        false ∧
    ((execute_update sampleEnv [("backup_before", JValue.bool true)]).2.success =
        false ∧
     (execute_update sampleEnv
        [("backup_before", JValue.bool true)]).1.filter isCoreUpdatePost = []) :=
  ⟨rfl, rfl, execute_update_aborts_on_failed_backup sampleEnv
    [("backup_before", JValue.bool true)] rfl rfl⟩

/-- C7: a metrics submission answered with HTTP 401 produces exactly one
POST within the tick (no retry), the distinct invalid-credential error log,
and leaves the stored configuration untouched. -/
theorem metrics_401_no_retry (cfg : EntryConfig) (env : MetricsEnv)
    (json : PyDict) (text : String)
    (hid : truthy env.instance_id = true)
    (h401 : env.postOutcome = .resp 401 json text) :
    ((send_metrics_to_cloud cfg env).1.filter isCloudPost).length = 1 ∧
    (send_metrics_to_cloud cfg env).1.filter isLogError =
      [Effect.logError (authFailMsg text)] ∧
    (send_metrics_to_cloud cfg env).2 = cfg := by
  have hrw : send_metrics_to_cloud cfg env =
      ([Effect.collectMetrics,
        Effect.cloudPost (rstripSlash cfg.cloud_url ++ "/api/v1/metrics")
          [("instance_id", env.instance_id), ("timestamp", .str env.nowIso),
           ("metrics", .obj (collect_all env.probes))],
        Effect.logError (authFailMsg text)], cfg) := by
    unfold send_metrics_to_cloud
    rw [h401]
    simp [hid]
  rw [hrw]
  exact ⟨rfl, rfl, rfl⟩

/-- Sample connection configuration. -/
def sampleCfg : EntryConfig :=
  ⟨"https://fleet.example.com", "key123", "My Home"⟩

/-- Sample probe outcomes with one raising probe. -/
def sampleProbes : ProbeOutcomes :=
  ⟨.ok [("core_version", .str "2024.1.0")], .error "psutil unavailable",
   .ok [("total_entities", .num 1500)], .ok [], .ok [], .ok []⟩

/-- Sample metrics environment whose submission is answered with 401. -/
def sampleMetricsEnv : MetricsEnv :=
  ⟨sampleProbes, .str "uuid-1234", "2026-01-01T00:00:00+00:00",
   .resp 401 [] "invalid token"⟩

theorem metrics_401_no_retry_witness :
    truthy sampleMetricsEnv.instance_id = true ∧
    sampleMetricsEnv.postOutcome = .resp 401 [] "invalid token" ∧
    (((send_metrics_to_cloud sampleCfg sampleMetricsEnv).1.filter
        isCloudPost).length = 1 ∧
     (send_metrics_to_cloud sampleCfg sampleMetricsEnv).1.filter isLogError =
       [Effect.logError (authFailMsg "invalid token")] ∧
     (send_metrics_to_cloud sampleCfg sampleMetricsEnv).2 = sampleCfg) :=
  ⟨rfl, rfl,
   metrics_401_no_retry sampleCfg sampleMetricsEnv [] "invalid token" rfl rfl⟩

/-- C8: a metrics tick in any host state other than `"RUNNING"` is a
complete skip: its whole output is one debug log — no snapshot collection,
no HTTP call, no other effect — and the stored configuration is unchanged
(nothing is deferred or queued). -/
theorem send_metrics_tick_noop_when_not_running (ha_state : String)
    (cfg : EntryConfig) (env : MetricsEnv) (h : ha_state ≠ "RUNNING") :
    send_metrics_tick ha_state cfg env =
      ([Effect.logDebug ("HA not fully running yet (state: " ++ ha_state ++
        "), skipping metrics")], cfg) ∧
    (send_metrics_tick ha_state cfg env).1.filter isExternalEffect = [] := by
  have ht : send_metrics_tick ha_state cfg env =
      ([Effect.logDebug ("HA not fully running yet (state: " ++ ha_state ++
        "), skipping metrics")], cfg) := by
    unfold send_metrics_tick
    simp [h]
  refine ⟨ht, ?_⟩
  rw [ht]
  rfl

theorem send_metrics_tick_noop_witness :
    "STARTING" ≠ "RUNNING" ∧
    (send_metrics_tick "STARTING" sampleCfg sampleMetricsEnv =
      ([Effect.logDebug ("HA not fully running yet (state: " ++ "STARTING" ++
        "), skipping metrics")], sampleCfg) ∧
     (send_metrics_tick "STARTING" sampleCfg sampleMetricsEnv).1.filter
        isExternalEffect = []) :=
  ⟨by decide, send_metrics_tick_noop_when_not_running "STARTING" sampleCfg
    sampleMetricsEnv (by decide)⟩

/-! ## C6: `get_logs` on a 500-line source -/

theorem pySplitChar_append_sep (sep : Char) (cs ds : List Char)
    (h : ∀ c ∈ cs, c ≠ sep) :
    pySplitChar sep (cs ++ sep :: ds) = cs :: pySplitChar sep ds := by
  induction cs with
  | nil => simp [pySplitChar]
  | cons c cs ih =>
    have hc : c ≠ sep := h c (List.mem_cons_self c cs)
    have h' : ∀ x ∈ cs, x ≠ sep := fun x hx => h x (List.mem_cons_of_mem c hx)
    simp only [List.cons_append, pySplitChar, List.append_eq]
    rw [ih h']
    simp [hc]

theorem pySplitChar_flatten_replicate (sep : Char) (lc : List Char)
    (h : ∀ c ∈ lc, c ≠ sep) (n : ℕ) :
    pySplitChar sep (List.flatten (List.replicate n (lc ++ [sep]))) =
      List.replicate n lc ++ [[]] := by
  induction n with
  | zero => simp [pySplitChar]
  | succ n ih =>
    have hshape : (lc ++ [sep]) ++ List.flatten (List.replicate n (lc ++ [sep])) =
        lc ++ sep :: List.flatten (List.replicate n (lc ++ [sep])) := by simp
    rw [List.replicate_succ, List.flatten_cons, hshape,
      pySplitChar_append_sep sep _ _ h, ih]
    simp [List.replicate_succ]

theorem recentOf_50_of_500 (xs : List String) (h : xs.length = 500) :
    recentOf xs 50 = xs.drop 450 ∧ (xs.drop 450).length = 50 := by
  constructor
  · unfold recentOf pyTailSlice
    rw [h]
    norm_num
    rfl
  · rw [List.length_drop, h]

/-- C6 (amended): with `lines=50`, the local-file path on a 500-line file
returns exactly the last 50 lines with `total_lines=500, returned_lines=50`;
the sidecar path does the same provided the retrieved log text splits on
newlines into exactly 500 fields (i.e. has no trailing newline). -/
theorem get_logs_last_50_of_500 (envF envS : SupEnv) (params : PyDict)
    (path tok text : String) (fileLines : List String)
    (hp : pyGet params "lines" = some (.num 50))
    (hF1 : envF.supervisorToken = none)
    (hF2 : envF.logFile = some (path, .ok fileLines))
    (hF3 : fileLines.length = 500)
    (hS1 : envS.supervisorToken = some tok)
    (hS2 : envS.coreLogs = .resp 200 text)
    (hS3 : (pySplitNl text).length = 500) :
    (get_logs envF params).2.extra =
      [("logs", .str (String.join (fileLines.drop 450))),
       ("total_lines", .num 500), ("returned_lines", .num 50)] ∧
    (fileLines.drop 450).length = 50 ∧
    (get_logs envS params).2.extra =
      [("logs", .str (String.intercalate "\n" ((pySplitNl text).drop 450))),
       ("total_lines", .num 500), ("returned_lines", .num 50)] ∧
    ((pySplitNl text).drop 450).length = 50 := by
  have hl : get_logs_lines params = 50 := by
    unfold get_logs_lines pyGetD
    rw [hp]
    rfl
  obtain ⟨hrF, hlF⟩ := recentOf_50_of_500 fileLines hF3
  obtain ⟨hrS, hlS⟩ := recentOf_50_of_500 (pySplitNl text) hS3
  refine ⟨?_, hlF, ?_, hlS⟩
  · unfold get_logs
    rw [hF1]
    unfold get_logs_from_file
    rw [hl, hF2]
    dsimp only
    rw [hrF, hlF, hF3]
    rfl
  · unfold get_logs
    rw [hS1, hl, hS2]
    dsimp only
    simp only [if_pos rfl]
    rw [hrS, hlS, hS3]
    rfl

/-- A 500-line log text: `"line\n"` repeated 500 times (every line, the
last included, newline-terminated, as a log file or log stream ends). -/
def trailingNlText : String :=
  String.mk (List.flatten (List.replicate 500 ("line".toList ++ ['\n'])))

/-- Sidecar environment serving the 500-line log text. -/
def sidecar500Env : SupEnv :=
  { sampleEnv with supervisorToken := some "tok"
                   coreLogs := .resp 200 trailingNlText }

/-- `{"lines": 50}`. -/
def lines50Params : PyDict := [("lines", .num 50)]

/-- C6 counterexample: on the sidecar path a 500-line log text (each line
newline-terminated) splits on newlines into 501 fields, so the result
reports `total_lines = 501`, not 500 as claimed. -/
theorem get_logs_sidecar_500_counterexample :
    pyGet (get_logs sidecar500Env lines50Params).2.extra "total_lines" =
      some (.num 501) ∧ (501 : Int) ≠ 500 := by
  have hlen : (pySplitNl trailingNlText).length = 501 := by
    unfold pySplitNl trailingNlText
    rw [show (String.mk (List.flatten
          (List.replicate 500 ("line".toList ++ ['\n'])))).toList =
        List.flatten (List.replicate 500 ("line".toList ++ ['\n'])) from rfl]
    rw [pySplitChar_flatten_replicate '\n' _ (by decide) 500]
    rw [List.length_map, List.length_append, List.length_replicate]
    rfl
  have hgl : (get_logs sidecar500Env lines50Params).2.extra =
      [("logs", .str (String.intercalate "\n"
          (recentOf (pySplitNl trailingNlText) 50))),
       ("total_lines", .num (pySplitNl trailingNlText).length),
       ("returned_lines",
        .num (recentOf (pySplitNl trailingNlText) 50).length)] := rfl
  rw [hgl, hlen]
  exact ⟨rfl, by decide⟩

/-- 500-line file content (`readlines()` keeps the newlines). -/
def fileLines500 : List String := List.replicate 500 "line\n"

/-- A log text with exactly 500 newline-separated fields. -/
def noTrailingNlText : String := String.mk (List.replicate 499 '\n')

/-- Fallback environment with the 500-line local log file. -/
def fileEnv : SupEnv :=
  { sampleEnv with supervisorToken := none
                   logFile := some ("/config/home-assistant.log",
                     .ok fileLines500) }

/-- Sidecar environment serving the 500-field log text. -/
def sidecarEnv : SupEnv :=
  { sampleEnv with supervisorToken := some "tok"
                   coreLogs := .resp 200 noTrailingNlText }

theorem flatten_replicate_singleton (n : ℕ) (a : Char) :
    List.flatten (List.replicate n [a]) = List.replicate n a := by
  induction n with
  | zero => rfl
  | succ n ih => simp [List.replicate_succ, ih]

theorem noTrailingNlText_fields : (pySplitNl noTrailingNlText).length = 500 := by
  have h := pySplitChar_flatten_replicate '\n' [] (by simp) 499
  simp only [List.nil_append, flatten_replicate_singleton] at h
  unfold pySplitNl noTrailingNlText
  rw [show (String.mk (List.replicate 499 '\n')).toList =
      List.replicate 499 '\n' from rfl]
  rw [h]
  rw [List.length_map, List.length_append, List.length_replicate]
  rfl

theorem fileLines500_length : fileLines500.length = 500 := by
  unfold fileLines500
  rw [List.length_replicate]

theorem get_logs_last_50_of_500_witness :
    pyGet lines50Params "lines" = some (.num 50) ∧
    fileEnv.supervisorToken = none ∧
    fileEnv.logFile = some ("/config/home-assistant.log", .ok fileLines500) ∧
    fileLines500.length = 500 ∧
    sidecarEnv.supervisorToken = some "tok" ∧
    sidecarEnv.coreLogs = .resp 200 noTrailingNlText ∧
    (pySplitNl noTrailingNlText).length = 500 ∧
    ((get_logs fileEnv lines50Params).2.extra =
      [("logs", .str (String.join (fileLines500.drop 450))),
       ("total_lines", .num 500), ("returned_lines", .num 50)] ∧
     (fileLines500.drop 450).length = 50 ∧
     (get_logs sidecarEnv lines50Params).2.extra =
      [("logs", .str (String.intercalate "\n"
          ((pySplitNl noTrailingNlText).drop 450))),
       ("total_lines", .num 500), ("returned_lines", .num 50)] ∧
     ((pySplitNl noTrailingNlText).drop 450).length = 50) :=
  ⟨rfl, rfl, rfl, fileLines500_length, rfl, rfl, noTrailingNlText_fields,
   get_logs_last_50_of_500 fileEnv sidecarEnv lines50Params
     "/config/home-assistant.log" "tok" noTrailingNlText fileLines500
     rfl rfl rfl fileLines500_length rfl rfl noTrailingNlText_fields⟩
